import Mathlib

/-!
Verification development for the ChatbotLaw RAG API (src/demo2.py).

The Python source is shallowly embedded as follows:
  - Python strings are `String` (or `List Char` for document text, where the
    per-character slicing `content[:200]` matters);
  - Python dicts used as JSON records are association lists
    `List (String × String)` with first-match lookup, mirroring `dict.get`;
  - values that may be `None` are `Option`;
  - raised exceptions become `Except String` errors carrying `str(e)`;
  - the module-level globals `qa_chain` / `preprocessing_chain` appear as the
    `Bool` flags "this global is non-null" passed to the handler;
  - the opaque collaborators (preprocessing chain, qa chain, embedding model,
    Weaviate client, LLM, reranker) are not in the repository; their outcomes
    are parameters of the embedded functions.
-/

/-- A retrieved document as consumed by `format_sources_optimized`
(src/demo2.py:131-140): its textual content `page_content` (a sequence of
characters, so that the slice `content[:200]` is `List.take 200`) and its
`metadata` mapping. -/
structure Doc where
  page_content : List Char
  metadata : List (String × String)
deriving DecidableEq

/-- One formatted source entry, the dict built at src/demo2.py:137-140. -/
structure SourcePreview where
  source : String
  preview : List Char
deriving DecidableEq

/-- The request model `RAGQueryRequest` (src/demo2.py:98-100); the turns of
`chat_history` are opaque, kept as strings. -/
structure RAGQueryRequest where
  question : String
  chat_history : Option (List String) := some []
deriving DecidableEq

/-- The response model `RAGQueryResponse` (src/demo2.py:103-107). -/
structure RAGQueryResponse where
  classification : String
  rewritten_question : String
  answer : String
  sources : Option (List SourcePreview) := none
deriving DecidableEq

/-- An `HTTPException(status_code, detail)` raised by the endpoint. -/
structure HTTPException where
  status_code : Nat
  detail : String
deriving DecidableEq

/-- Result of a preprocessing-chain invocation once parsed: a JSON object,
i.e. a string-keyed record (src/demo2.py:113,172-173 access it only
through `.get` with string defaults). -/
abbrev PrepResult := List (String × String)

/-- The duck-typed value produced by `qa_chain.invoke` (src/demo2.py:178-183):
either a dict - with an optional "answer" string, an optional "context" list
of documents, and its `str()` form used as the `.get` default - or a non-dict
value carried via its `str()` form. -/
inductive RagValue where
  | dict (answer_val : Option String) (context_val : Option (List Doc)) (str_val : String)
  | text (str_val : String)
deriving DecidableEq

/-- Python `d.get(key, dflt)` on a string-valued record. -/
def dictGet (d : List (String × String)) (key : String) (dflt : String) : String :=
  match d.lookup key with
  | some v => v
  | none => dflt

/-- The `"..."` appended by src/demo2.py:135 when content is truncated. -/
def truncation_marker : List Char := ['.', '.', '.']

/-- Body of the loop of `format_sources_optimized` (src/demo2.py:131-140):
preview is the first 200 characters, plus the marker when the content is
strictly longer than 200; source is `doc.metadata.get("source", "[No source]")`. -/
def formatDoc (doc : Doc) : SourcePreview :=
  { source := dictGet doc.metadata "source" "[No source]"
    preview := if 200 < doc.page_content.length
               then doc.page_content.take 200 ++ truncation_marker
               else doc.page_content.take 200 }

/-- The function `format_sources_optimized` (src/demo2.py:125-142). Python's
`if not sources: return None` treats both `None` and the empty list as falsy;
otherwise the loop produces one formatted entry per document, in order. -/
def format_sources_optimized (sources : Option (List Doc)) : Option (List SourcePreview) :=
  match sources with
  | none => none
  | some [] => none
  | some docs => some (docs.map formatDoc)

/-- The wrapper `run_preprocessing` (src/demo2.py:110-116): it invokes the
preprocessing chain and catches every exception, substituting the fallback
record with classification "unknown" and the original question. The chain's
own outcome (normal return or raised exception) is the argument. -/
def run_preprocessing (question : String)
    (chain_result : Except String PrepResult) : PrepResult :=
  match chain_result with
  | Except.ok r => r
  | Except.error _ => [("classification", "unknown"), ("rewritten_question", question)]

/-- The wrapper `run_rag_pipeline` (src/demo2.py:119-122): it invokes the qa
chain with no exception handling, so the chain's outcome passes through. -/
def run_rag_pipeline (chain_result : Except String RagValue) : Except String RagValue :=
  chain_result

/-- The value `asyncio.gather(..., return_exceptions=True)` delivers for the
preprocessing future (src/demo2.py:156-165): the return value of
`run_preprocessing`, which never raises, wrapped as a normal (non-exception)
outcome. -/
def preprocessing_task_outcome (question : String)
    (chain_result : Except String PrepResult) : Except String PrepResult :=
  Except.ok (run_preprocessing question chain_result)

/-- Python's `request.chat_history or []` normalization (src/demo2.py:153). -/
def normalized_history (chat_history : Option (List String)) : List String :=
  match chat_history with
  | none => []
  | some h => h

/-- Body of the endpoint `rag_query` (src/demo2.py:146-192), from the
initialization guard (line 149) through response construction, as a function
of the two gathered task outcomes. `qa_chain` and `preprocessing_chain` are
the "global is non-null" flags tested by `if not qa_chain or not
preprocessing_chain` (line 149). An `Except.error` outcome is a task that
resolved to an exception under `return_exceptions=True`. -/
def rag_query (qa_chain preprocessing_chain : Bool) (req : RAGQueryRequest)
    (preprocessing_result : Except String PrepResult)
    (rag_result : Except String RagValue) : Except HTTPException RAGQueryResponse :=
  if qa_chain = false ∨ preprocessing_chain = false then
    Except.error { status_code := 500, detail := "RAG pipeline not initialized." }
  else
    let pre :=
      match preprocessing_result with
      | Except.error _ => ("unknown", req.question)
      | Except.ok d =>
          (dictGet d "classification" "unknown",
           dictGet d "rewritten_question" req.question)
    match rag_result with
    | Except.error e =>
        Except.error { status_code := 500, detail := "RAG pipeline failed: " ++ e }
    | Except.ok rv =>
        let answer :=
          match rv with
          | RagValue.dict a _ s => a.getD s
          | RagValue.text s => s
        let sources :=
          match rv with
          | RagValue.dict _ c _ => c
          | RagValue.text _ => none
        Except.ok { classification := pre.1, rewritten_question := pre.2,
                    answer := answer, sources := format_sources_optimized sources }

/-- The endpoint end to end: the gathered preprocessing outcome is whatever
`run_preprocessing` returned (it cannot raise), and the gathered rag outcome
is the qa chain's outcome passed through `run_rag_pipeline` unprotected. -/
def rag_query_full (qa_chain preprocessing_chain : Bool) (req : RAGQueryRequest)
    (preprocessing_chain_result : Except String PrepResult)
    (qa_chain_result : Except String RagValue) : Except HTTPException RAGQueryResponse :=
  rag_query qa_chain preprocessing_chain req
    (preprocessing_task_outcome req.question preprocessing_chain_result)
    (run_rag_pipeline qa_chain_result)

/-- Observable steps of the `rag_query` handler, in source order
(src/demo2.py:149-192): the initialization guard, the two
`loop.run_in_executor` submissions (lines 156-161), the `asyncio.gather`
join (lines 163-165), and response assembly. -/
inductive OrchestratorStep where
  | checkInit
  | submitPreprocessing
  | submitRag
  | awaitJoin
  | assemble
deriving DecidableEq, BEq

/-- The sequence of orchestration steps `rag_query` performs, read off the
statement order of src/demo2.py:149-192: when the guard passes, both
executor submissions happen before the single gather that awaits them; when
it fails, the handler raises without submitting anything. -/
def rag_query_trace (qa_chain preprocessing_chain : Bool) : List OrchestratorStep :=
  if qa_chain && preprocessing_chain then
    [OrchestratorStep.checkInit, OrchestratorStep.submitPreprocessing,
     OrchestratorStep.submitRag, OrchestratorStep.awaitJoin, OrchestratorStep.assemble]
  else
    [OrchestratorStep.checkInit]

/-- Modelled from the spec: the Worker Offload Pool (spec section 4.2) - the
stdlib `ThreadPoolExecutor(max_workers=4)` plus `asyncio.gather`, which are
not part of this repository. Tasks submitted simultaneously to a pool of
`workers` workers all start at once when they number at most `workers`, so
the join completes when the longest task finishes; the oversubscribed case
is left unmodelled (`none`). Durations are abstract time units. -/
def poolJoinTime (workers : Nat) (durations : List Nat) : Option Nat :=
  if durations.length ≤ workers then some (durations.foldr max 0) else none

/-- Claim C1: if the preprocessing task fails while the answer-generation task
succeeds, the request still returns a full response whose classification is
"unknown" and whose rewritten_question is the original question (never the
raw error), and the failure is not surfaced to the caller. Stated both for
the real path (the chain raised and `run_preprocessing` substituted the
fallback record) and for the defensive orchestrator branch (the gathered
preprocessing outcome itself being an exception). -/
theorem preprocessing_failure_falls_back (req : RAGQueryRequest) (e : String) (rv : RagValue) :
    (∃ resp, rag_query_full true true req (Except.error e) (Except.ok rv) = Except.ok resp ∧
        resp.classification = "unknown" ∧ resp.rewritten_question = req.question) ∧
    (∃ resp, rag_query true true req (Except.error e) (Except.ok rv) = Except.ok resp ∧
        resp.classification = "unknown" ∧ resp.rewritten_question = req.question) :=
  ⟨⟨_, rfl, rfl, rfl⟩, ⟨_, rfl, rfl, rfl⟩⟩

/-- Claim C2: if the answer-generation task fails, the whole request fails
with a 500 pipeline error carrying the underlying failure detail, and no
partial response is returned, whatever the preprocessing outcome was. -/
theorem rag_failure_fails_request (req : RAGQueryRequest)
    (prep : Except String PrepResult) (e : String) :
    rag_query_full true true req prep (Except.error e) =
      Except.error { status_code := 500, detail := "RAG pipeline failed: " ++ e } :=
  rfl

/-- Claim C8: if the answer-generation task returns a value that is not a
structured record, the whole value (its string form) is used as the answer
and the response reports no sources. -/
theorem text_result_answer (req : RAGQueryRequest)
    (prep : Except String PrepResult) (s : String) :
    ∃ resp, rag_query_full true true req prep (Except.ok (RagValue.text s)) = Except.ok resp ∧
      resp.answer = s ∧ resp.sources = none :=
  ⟨_, rfl, rfl, rfl⟩

/-- Claim C7: a query received before the registry is initialized (either
guarded global null) fails immediately with the 500 "not initialized" error;
the result is independent of any task outcome and the handler's trace
contains no submission step, so no pipeline work is submitted. -/
theorem uninitialized_rejects (qa_chain preprocessing_chain : Bool) (req : RAGQueryRequest)
    (p1 p2 : Except String PrepResult) (r1 r2 : Except String RagValue)
    (h : qa_chain = false ∨ preprocessing_chain = false) :
    rag_query qa_chain preprocessing_chain req p1 r1 =
        Except.error { status_code := 500, detail := "RAG pipeline not initialized." } ∧
    rag_query qa_chain preprocessing_chain req p1 r1 =
        rag_query qa_chain preprocessing_chain req p2 r2 ∧
    OrchestratorStep.submitPreprocessing ∉ rag_query_trace qa_chain preprocessing_chain ∧
    OrchestratorStep.submitRag ∉ rag_query_trace qa_chain preprocessing_chain := by
  refine ⟨?_, ?_, ?_, ?_⟩
  · unfold rag_query
    rw [if_pos h]
  · unfold rag_query
    rw [if_pos h, if_pos h]
  · rcases h with h | h <;> subst h <;>
      simp [rag_query_trace, Bool.false_and, Bool.and_false]
  · rcases h with h | h <;> subst h <;>
      simp [rag_query_trace, Bool.false_and, Bool.and_false]

/-- Witness for claim C7 at a concrete uninitialized state. -/
theorem uninitialized_rejects_witness :
    ((false : Bool) = false ∨ (true : Bool) = false) ∧
    (rag_query false true { question := "q" } (Except.ok []) (Except.ok (RagValue.text "a")) =
        Except.error { status_code := 500, detail := "RAG pipeline not initialized." } ∧
      rag_query false true { question := "q" } (Except.ok []) (Except.ok (RagValue.text "a")) =
        rag_query false true { question := "q" } (Except.error "e") (Except.error "f") ∧
      OrchestratorStep.submitPreprocessing ∉ rag_query_trace false true ∧
      OrchestratorStep.submitRag ∉ rag_query_trace false true) :=
  ⟨Or.inl rfl,
   uninitialized_rejects false true { question := "q" } (Except.ok []) (Except.error "e")
     (Except.ok (RagValue.text "a")) (Except.error "f") (Or.inl rfl)⟩

/-- Claim C10: the preprocessing wrapper is total with respect to collaborator
failures - it returns the chain's result on success and the fallback record
on any exception, never raising - so the gathered outcome of the
preprocessing future is always a non-exception value and the orchestrator's
exception branch for it is unreachable. -/
theorem run_preprocessing_total (q : String) (co : Except String PrepResult) :
    (∀ d, co = Except.ok d → run_preprocessing q co = d) ∧
    (∀ e, co = Except.error e →
        run_preprocessing q co =
          [("classification", "unknown"), ("rewritten_question", q)]) ∧
    ∃ d, preprocessing_task_outcome q co = Except.ok d := by
  refine ⟨?_, ?_, ?_⟩
  · intro d hd
    subst hd
    rfl
  · intro e he
    subst he
    rfl
  · exact ⟨run_preprocessing q co, rfl⟩

/-- Witness for claim C10 at a concrete failing chain outcome. -/
theorem run_preprocessing_total_witness :
    run_preprocessing "q" (Except.error "boom") =
      [("classification", "unknown"), ("rewritten_question", "q")] :=
  (run_preprocessing_total "q" (Except.error "boom")).2.1 "boom" rfl

/-- Claim C9: both pipeline tasks are submitted before either is awaited (in
the handler's trace both submissions precede the join), and under the pool
timing model two simultaneously started tasks of durations T and 0 complete
jointly at time T, not T + T: the tasks run concurrently, the join is not
sequential execution. -/
theorem concurrent_submission_join (T : Nat) (hT : 0 < T) :
    (rag_query_trace true true).indexOf OrchestratorStep.submitPreprocessing <
        (rag_query_trace true true).indexOf OrchestratorStep.awaitJoin ∧
    (rag_query_trace true true).indexOf OrchestratorStep.submitRag <
        (rag_query_trace true true).indexOf OrchestratorStep.awaitJoin ∧
    poolJoinTime 4 [T, 0] = some T ∧
    poolJoinTime 4 [0, T] = some T ∧
    poolJoinTime 4 [T, 0] ≠ some (T + T) := by
  refine ⟨by decide, by decide, ?_, ?_, ?_⟩
  · simp [poolJoinTime]
  · simp [poolJoinTime]
  · simp only [poolJoinTime, List.foldr]
    intro h
    rw [if_pos (by simp)] at h
    simp at h
    omega

/-- Witness for claim C9 at T = 1. -/
theorem concurrent_submission_join_witness :
    0 < 1 ∧
    ((rag_query_trace true true).indexOf OrchestratorStep.submitPreprocessing <
        (rag_query_trace true true).indexOf OrchestratorStep.awaitJoin ∧
      (rag_query_trace true true).indexOf OrchestratorStep.submitRag <
        (rag_query_trace true true).indexOf OrchestratorStep.awaitJoin ∧
      poolJoinTime 4 [1, 0] = some 1 ∧
      poolJoinTime 4 [0, 1] = some 1 ∧
      poolJoinTime 4 [1, 0] ≠ some (1 + 1)) :=
  ⟨Nat.one_pos, concurrent_submission_join 1 Nat.one_pos⟩

/-- Counterexample to claim C6 as stated: a successful answer-generation task
whose dict carries an empty "answer" string yields a 200 response whose
answer is the empty string - the code does not guarantee a non-empty answer. -/
theorem empty_answer_on_success :
    rag_query_full true true { question := "q" } (Except.ok [("classification", "law")])
        (Except.ok (RagValue.dict (some "") none "repr")) =
      Except.ok { classification := "law", rewritten_question := "q",
                  answer := "", sources := none } :=
  rfl

/-- Claim C6 (amended): whenever the answer-generation task succeeds, the
request returns a full response record - classification, rewritten_question,
answer and sources all populated (with real or fallback values, never
null/absent) - and the answer is exactly the collaborator's answer string
(or the string form of its raw result), which may itself be empty. -/
theorem rag_success_full_response (req : RAGQueryRequest)
    (prep : Except String PrepResult) (rv : RagValue) :
    ∃ resp, rag_query_full true true req prep (Except.ok rv) = Except.ok resp ∧
      (∀ a c s, rv = RagValue.dict a c s → resp.answer = a.getD s) ∧
      (∀ s, rv = RagValue.text s → resp.answer = s) := by
  refine ⟨_, rfl, ?_, ?_⟩
  · intro a c s h
    subst h
    rfl
  · intro s h
    subst h
    rfl

/-- Witness for the amended claim C6 at a concrete successful outcome. -/
theorem rag_success_full_response_witness :
    ∃ resp, rag_query_full true true { question := "q" } (Except.ok [])
        (Except.ok (RagValue.text "hello")) = Except.ok resp ∧
      (∀ a c s, RagValue.text "hello" = RagValue.dict a c s → resp.answer = a.getD s) ∧
      (∀ s, RagValue.text "hello" = RagValue.text s → resp.answer = s) :=
  rag_success_full_response { question := "q" } (Except.ok []) (RagValue.text "hello")

/-- Claim C4: formatting an absent or empty raw_sources input returns the
absent value, and a present formatted result is never the empty sequence. -/
theorem format_sources_empty_absent :
    format_sources_optimized none = none ∧
    format_sources_optimized (some []) = none ∧
    ∀ (s : Option (List Doc)) (out : List SourcePreview),
      format_sources_optimized s = some out → out ≠ [] := by
  refine ⟨rfl, rfl, ?_⟩
  intro s out h
  match s with
  | none => exact absurd h (by simp [format_sources_optimized])
  | some [] => exact absurd h (by simp [format_sources_optimized])
  | some (d :: ds) =>
    rw [show format_sources_optimized (some (d :: ds))
          = some ((d :: ds).map formatDoc) from rfl] at h
    cases h
    simp

/-- Witness for claim C4 at a concrete one-document input. -/
theorem format_sources_empty_absent_witness :
    format_sources_optimized
        (some [{ page_content := ['a'], metadata := [] }]) =
      some [formatDoc { page_content := ['a'], metadata := [] }] ∧
    [formatDoc { page_content := ['a'], metadata := [] }] ≠ [] :=
  ⟨rfl, format_sources_empty_absent.2.2
    (some [{ page_content := ['a'], metadata := [] }])
    [formatDoc { page_content := ['a'], metadata := [] }] rfl⟩

/-- Claim C3: for every non-empty list of retrieved documents, formatting
returns one preview per document in the same order; each preview is the
first 200 characters of the document content, the truncation marker is
appended exactly when the content is strictly longer than 200 characters
(length exactly 200 gets no marker, the content is returned whole), and the
source is the metadata value at "source", defaulting to the sentinel. -/
theorem format_sources_characterization (l : List Doc) (hne : l ≠ []) :
    ∃ out, format_sources_optimized (some l) = some out ∧
      out.length = l.length ∧
      ∀ (i : Nat) (hi : i < l.length) (ho : i < out.length),
        (out.get ⟨i, ho⟩).source
            = dictGet (l.get ⟨i, hi⟩).metadata "source" "[No source]" ∧
        ((l.get ⟨i, hi⟩).page_content.length ≤ 200 →
            (out.get ⟨i, ho⟩).preview = (l.get ⟨i, hi⟩).page_content) ∧
        ((out.get ⟨i, ho⟩).preview
              = (l.get ⟨i, hi⟩).page_content.take 200 ++ truncation_marker
            ↔ 200 < (l.get ⟨i, hi⟩).page_content.length) := by
  have hfmt : format_sources_optimized (some l) = some (l.map formatDoc) := by
    cases l with
    | nil => exact absurd rfl hne
    | cons d ds => rfl
  refine ⟨l.map formatDoc, hfmt, by simp, ?_⟩
  intro i hi ho
  have hg : (l.map formatDoc).get ⟨i, ho⟩ = formatDoc (l.get ⟨i, hi⟩) := by
    simp [List.get_eq_getElem, List.getElem_map]
  rw [hg]
  refine ⟨rfl, ?_, ?_⟩
  · intro hle
    simp only [formatDoc]
    rw [if_neg (by omega)]
    exact List.take_of_length_le hle
  · by_cases hlen : 200 < (l.get ⟨i, hi⟩).page_content.length
    · simp only [formatDoc]
      rw [if_pos hlen]
      exact ⟨fun _ => hlen, fun _ => rfl⟩
    · simp only [formatDoc]
      rw [if_neg hlen]
      refine ⟨?_, fun h => absurd h hlen⟩
      intro h
      have hlen2 := congrArg List.length h
      simp only [truncation_marker, List.length_take, List.length_append,
        List.length_cons, List.length_nil] at hlen2
      omega

/-- A concrete two-character document with an explicit source entry. -/
def sampleDoc : Doc :=
  { page_content := ['a', 'b'], metadata := [("source", "doc1")] }

/-- Witness for claim C3 at the concrete one-document list. -/
theorem format_sources_characterization_witness :
    ([sampleDoc] : List Doc) ≠ [] ∧
    ∃ out, format_sources_optimized (some [sampleDoc]) = some out ∧
      out.length = [sampleDoc].length ∧
      ∀ (i : Nat) (hi : i < [sampleDoc].length) (ho : i < out.length),
        (out.get ⟨i, ho⟩).source
            = dictGet ([sampleDoc].get ⟨i, hi⟩).metadata "source" "[No source]" ∧
        (([sampleDoc].get ⟨i, hi⟩).page_content.length ≤ 200 →
            (out.get ⟨i, ho⟩).preview = ([sampleDoc].get ⟨i, hi⟩).page_content) ∧
        ((out.get ⟨i, ho⟩).preview
              = ([sampleDoc].get ⟨i, hi⟩).page_content.take 200 ++ truncation_marker
            ↔ 200 < ([sampleDoc].get ⟨i, hi⟩).page_content.length) :=
  ⟨List.cons_ne_nil _ _,
   format_sources_characterization [sampleDoc] (List.cons_ne_nil _ _)⟩

